import Mathlib

/-!
Shallow embedding of the `log_explorer` terminal client core
(`src/filter_field.rs`, `src/app.rs`, `src/opensearch.rs`, `src/main.rs`)
together with theorems settling the specification claims.

Rust `String` values are modelled as `List Char`; `u64`/`usize` as `Nat`
(with explicit wrapping where a cast matters); `i64` as `Int`; fallible
backend calls are modelled by passing the backend response
(`Except Str ...`) explicitly into the state-transition functions.
-/

namespace LogExplorer

/-- Rust strings, modelled as their character lists. -/
abbrev Str := List Char

/-- Convenience conversion from Lean string literals to the `Str` model. -/
def str (s : String) : Str := s.toList

/-- Model of Rust `str::to_lowercase` (per-character lowering; the inputs in
this program are ASCII, where the two notions agree). -/
def lowerStr (s : Str) : Str := s.map Char.toLower

/-- Model of Rust `str::contains(needle)`: `needle` occurs as a contiguous
substring of `hay`. -/
def substrOf (needle hay : Str) : Bool :=
  hay.tails.any (fun t => List.isPrefixOf needle t)

/-- Decimal rendering of a natural, used for status strings. -/
def fmtNat (n : Nat) : Str := (Nat.repr n).toList

/-- Model of Rust `str::parse::<i64>().ok()`: optional sign followed by at
least one decimal digit (overflow behaviour is irrelevant for the committed
page sizes used by the program). -/
def parseI64 (s : Str) : Option Int :=
  let digits : Str → Option Nat := fun ds =>
    if ds.isEmpty then none
    else ds.foldl (fun acc c =>
      match acc with
      | none => none
      | some n => if c.isDigit then some (n * 10 + (c.toNat - 48)) else none)
      (some 0)
  match s with
  | '-' :: rest => (digits rest).map (fun n => -(n : Int))
  | '+' :: rest => (digits rest).map (fun n => (n : Int))
  | _ => (digits s).map (fun n => (n : Int))

/-- Model of Rust's `x as u64` applied to an `i64` value: two's-complement
wrap into `[0, 2^64)`. -/
def asU64 (x : Int) : Nat := (x % (2 : Int) ^ 64).toNat

/-- Model of Rust `u64::div_ceil` (callers guard `m ≠ 0`). -/
def divCeilU64 (n m : Nat) : Nat := n / m + (if n % m ≠ 0 then 1 else 0)

/-- `src/filter_field.rs`: reusable filterable dropdown field.
Holds a list of items, a type-to-filter search string, the confirmed
selection and the cursor position within the filtered results. -/
structure FilterField where
  items : List Str
  /-- Index into `items` of the confirmed (committed) selection. -/
  selected_index : Nat
  /-- Current search/filter text typed by the user. -/
  filter_text : Str
  /-- Indices into `items` that match `filter_text`. -/
  filtered_indices : List Nat
  /-- Cursor position within `filtered_indices`. -/
  cursor : Nat
  deriving DecidableEq, Repr

namespace FilterField

/-- `FilterField::new`. -/
def new : FilterField :=
  { items := [], selected_index := 0, filter_text := [],
    filtered_indices := [], cursor := 0 }

/-- `FilterField::refilter`: recompute `filtered_indices` from `items` and
`filter_text` (case-insensitive substring match, empty query matches all),
then clamp the cursor into the new bounds. -/
def refilter (f : FilterField) : FilterField :=
  let query := lowerStr f.filter_text
  let fi := ((f.items.enum.filter
      (fun p => query.isEmpty || substrOf query (lowerStr p.2))).map Prod.fst)
  { f with
    filtered_indices := fi,
    cursor := if fi.isEmpty then 0 else min f.cursor (fi.length - 1) }

/-- `FilterField::set_items`. -/
def set_items (f : FilterField) (items : List Str) : FilterField :=
  refilter { f with items := items, selected_index := 0 }

/-- `FilterField::select_value`: select the item matching `value`, if present. -/
def select_value (f : FilterField) (value : Str) : FilterField :=
  match f.items.findIdx? (fun item => item == value) with
  | some idx => { f with selected_index := idx }
  | none => f

/-- `FilterField::selected_value`: the confirmed/committed value. -/
def selected_value (f : FilterField) : Option Str :=
  f.items[f.selected_index]?

/-- `FilterField::open`: called when the dropdown opens; reset filter,
position cursor on the current selection. -/
def «open» (f : FilterField) : FilterField :=
  let f := refilter { f with filter_text := [] }
  { f with
    cursor := (f.filtered_indices.findIdx?
        (fun i => i == f.selected_index)).getD 0 }

/-- `FilterField::confirm`: commit the currently highlighted item. -/
def confirm (f : FilterField) : FilterField :=
  match f.filtered_indices[f.cursor]? with
  | some idx => { f with selected_index := idx }
  | none => f

/-- `FilterField::type_char`. -/
def type_char (f : FilterField) (c : Char) : FilterField :=
  refilter { f with filter_text := f.filter_text ++ [c] }

/-- `FilterField::backspace` (`String::pop` removes the last character). -/
def backspace (f : FilterField) : FilterField :=
  refilter { f with filter_text := f.filter_text.dropLast }

/-- `FilterField::next`: saturating cursor increment. -/
def next (f : FilterField) : FilterField :=
  if f.filtered_indices.isEmpty then f
  else { f with cursor := min (f.cursor + 1) (f.filtered_indices.length - 1) }

/-- `FilterField::previous`: saturating cursor decrement. -/
def previous (f : FilterField) : FilterField :=
  { f with cursor := f.cursor - 1 }

/-- `FilterField::filtered_items` (`self.items[i]` indexing never misses at
runtime; out-of-range indices fall back to the empty string). -/
def filtered_items (f : FilterField) : List Str :=
  f.filtered_indices.map (fun i => f.items.getD i [])

end FilterField

/-- The "ALL" sentinel (`src/app.rs`, `const ALL`). -/
def ALL : Str := str "ALL"

/-- `src/app.rs`: the `Pane` focus variants. `SearchFields` does not appear
in the provided `app.rs` snapshot but is required by `src/main.rs`
(`Pane::SearchFields`); the spec lists it as an optional filter-dimension
state (§4.2), and it is modelled exactly like `SearchMode`. -/
inductive Pane where
  | Profile | Application | Severity | TimeRange | Limit
  | Search | SearchMode | SearchFields | Logs | LogContext
  deriving DecidableEq, Repr

/-- `src/opensearch.rs` `LogEntry`, restricted to the fields the core reads
(`main.rs` additionally reads a `stacktrace` field). -/
structure LogEntry where
  timestamp : Str
  message : Str
  severity : Str
  logger : Str
  stacktrace : Str
  deriving DecidableEq, Repr

/-- `src/opensearch.rs` `LogResult`. -/
structure LogResult where
  logs : List LogEntry
  total : Nat
  deriving DecidableEq, Repr

/-- `src/opensearch.rs` `AvailableFilters`. -/
structure AvailableFilters where
  environments : List Str
  applications : List Str
  severities : List Str
  deriving DecidableEq, Repr

/-- `src/app.rs` `CONTEXT_MENU_OPTIONS`. -/
def CONTEXT_MENU_OPTIONS : List Str :=
  [str "Copy to clipboard", str "Open in editor"]

/-- `src/app.rs` `App`: the pane state machine. `search_fields_filter` is
demanded by `src/main.rs` (see `Pane.SearchFields`); it is modelled from the
spec as one more FilterField dimension. -/
structure App where
  focused : Pane
  profile_filter : FilterField
  app_filter : FilterField
  severity_filter : FilterField
  time_filter : FilterField
  limit_filter : FilterField
  search_text : Str
  search_mode_filter : FilterField
  search_fields_filter : FilterField
  logs : List LogEntry
  log_index : Nat
  total_hits : Nat
  page : Nat
  context_cursor : Nat
  status : Str
  deriving DecidableEq, Repr

namespace App

/-- `App::new`. -/
def new : App :=
  { focused := Pane.Logs,
    profile_filter := FilterField.new,
    app_filter := FilterField.new,
    severity_filter := FilterField.new,
    time_filter := FilterField.new,
    limit_filter := FilterField.new,
    search_text := [],
    search_mode_filter :=
      FilterField.new.set_items [str "Each word", str "Exact"],
    search_fields_filter := FilterField.new,
    logs := [],
    log_index := 0,
    total_hits := 0,
    page := 1,
    context_cursor := 0,
    status := str "Loading filters..." }

/-- `App::selected_env`. -/
def selected_env (a : App) : Option Str :=
  a.profile_filter.selected_value

/-- `App::selected_app`: committed application, with the "ALL" sentinel
filtered out. -/
def selected_app (a : App) : Option Str :=
  (a.app_filter.selected_value).filter (fun v => v ≠ ALL)

/-- `App::selected_severity`. -/
def selected_severity (a : App) : Option Str :=
  (a.severity_filter.selected_value).filter (fun v => v ≠ ALL)

/-- `App::selected_time_range`: fixed token → relative-expression table,
defaulting to `now-5m`. -/
def selected_time_range (a : App) : Str :=
  match a.time_filter.selected_value with
  | some v =>
    if v = str "1m" then str "now-1m"
    else if v = str "5m" then str "now-5m"
    else if v = str "15m" then str "now-15m"
    else if v = str "30m" then str "now-30m"
    else if v = str "1h" then str "now-1h"
    else if v = str "3h" then str "now-3h"
    else if v = str "6h" then str "now-6h"
    else if v = str "12h" then str "now-12h"
    else if v = str "24h" then str "now-24h"
    else if v = str "3d" then str "now-3d"
    else if v = str "7d" then str "now-7d"
    else str "now-5m"
  | none => str "now-5m"

/-- `App::selected_limit`: committed page size parsed as `i64`, default 100. -/
def selected_limit (a : App) : Int :=
  match a.limit_filter.selected_value with
  | some v => (parseI64 v).getD 100
  | none => 100

/-- `App::search_exact`. -/
def search_exact (a : App) : Bool :=
  a.search_mode_filter.selected_value == some (str "Exact")

/-- `App::total_pages`. -/
def total_pages (a : App) : Nat :=
  let limit := asU64 a.selected_limit
  if limit = 0 then 1
  else max (divCeilU64 a.total_hits limit) 1

/-- `App::active_filter_mut` (`src/app.rs` lines 118–128): the FilterField
owned by the focused pane. `none` models the `unreachable!` panic for the
panes that own no FilterField. The `SearchFields` arm is modelled from the
spec (see `Pane.SearchFields`). -/
def active_filter_mut (a : App) : Option FilterField :=
  match a.focused with
  | Pane.Profile => some a.profile_filter
  | Pane.Application => some a.app_filter
  | Pane.Severity => some a.severity_filter
  | Pane.TimeRange => some a.time_filter
  | Pane.Limit => some a.limit_filter
  | Pane.SearchMode => some a.search_mode_filter
  | Pane.SearchFields => some a.search_fields_filter
  | Pane.Search | Pane.Logs | Pane.LogContext => none

/-- Write-back counterpart of `active_filter_mut`, used to model the `&mut`
borrow: store an updated field back into the focused pane's slot. -/
def store_active (a : App) (f : FilterField) : App :=
  match a.focused with
  | Pane.Profile => { a with profile_filter := f }
  | Pane.Application => { a with app_filter := f }
  | Pane.Severity => { a with severity_filter := f }
  | Pane.TimeRange => { a with time_filter := f }
  | Pane.Limit => { a with limit_filter := f }
  | Pane.SearchMode => { a with search_mode_filter := f }
  | Pane.SearchFields => { a with search_fields_filter := f }
  | Pane.Search | Pane.Logs | Pane.LogContext => a

/-- `app.active_filter_mut().g(...)` as a state transformer; the `none`
branch corresponds to the `unreachable!` panic and is dead at every use
site (the key handler only calls it while a filter pane is focused). -/
def with_active (a : App) (g : FilterField → FilterField) : App :=
  match a.active_filter_mut with
  | some f => a.store_active (g f)
  | none => a

/-- `App::load_filters`, with the backend response passed explicitly. -/
def load_filters (a : App) (resp : Except Str AvailableFilters) : App :=
  let a := { a with status := str "Fetching available filters..." }
  match resp with
  | Except.ok filters =>
    let okStatus :=
      fmtNat filters.environments.length ++ str " environments, " ++
      fmtNat filters.applications.length ++
      str " applications - select filters and press Enter"
    let a := { a with status := okStatus }
    let environments := filters.environments.filter
      (fun e => e ≠ str "ACTIVE_PROFILE_IS_UNDEFINED")
    let newProfile :=
      (a.profile_filter.set_items environments).select_value (str "production")
    let a := { a with profile_filter := newProfile }
    let applications := ALL :: filters.applications.filter
      (fun t => t ≠ str "APPLICATION_NAME_IS_UNDEFINED")
    let a := { a with app_filter := a.app_filter.set_items applications }
    let severities := ALL :: filters.severities
    let a := { a with severity_filter := a.severity_filter.set_items severities }
    let time_ranges := [str "1m", str "5m", str "15m", str "30m", str "1h",
      str "3h", str "6h", str "12h", str "24h", str "3d", str "7d"]
    let newTime := (a.time_filter.set_items time_ranges).select_value (str "5m")
    let a := { a with time_filter := newTime }
    let limits := [str "50", str "100", str "200", str "500", str "1000"]
    let newLimit := (a.limit_filter.set_items limits).select_value (str "50")
    { a with limit_filter := newLimit }
  | Except.error e =>
    { a with status := str "Error loading filters: " ++ e }

end App

/-- The parameters `App::fetch_page` passes to `opensearch::fetch_logs`. -/
structure Params where
  application : Option Str
  profile : Str
  severity : Option Str
  time_range : Str
  search : Option Str
  search_exact : Bool
  size : Int
  «from» : Int
  deriving DecidableEq, Repr

namespace App

/-- The query/paginator front half of `App::fetch_page` (lines 182–197):
`none` exactly when no environment is selected (the fetch aborts locally);
otherwise the parameter record handed to the backend call. -/
def buildParams (a : App) (page : Nat) : Option Params :=
  match a.selected_env with
  | none => none
  | some env =>
    some {
      application := a.selected_app,
      profile := env,
      severity := a.selected_severity,
      time_range := a.selected_time_range,
      search := if a.search_text.isEmpty then none else some a.search_text,
      search_exact := a.search_exact,
      size := a.selected_limit,
      «from» := ((page - 1 : Nat) : Int) * a.selected_limit }

/-- The `label` string computed in `App::fetch_page`. -/
def fetchLabel (a : App) : Str :=
  let app_label := (a.selected_app).getD ALL
  match a.selected_severity with
  | some sev =>
      app_label ++ str " (" ++ (a.selected_env).getD [] ++ str ") [" ++
        sev ++ str "]"
  | none => app_label ++ str " (" ++ (a.selected_env).getD [] ++ str ")"

/-- `App::fetch_page`, with the backend response passed explicitly. On a
missing environment or a backend error only `status` is rewritten; on
success `logs`/`total_hits`/`page`/`log_index`/`focused` are replaced. -/
def fetch_page (a : App) (page : Nat) (resp : Except Str LogResult) : App :=
  match a.buildParams page with
  | none => { a with status := str "No environment selected" }
  | some _ =>
    let fetchingStatus :=
      str "Fetching page " ++ fmtNat page ++ str " from " ++
        a.fetchLabel ++ str "..."
    let a := { a with status := fetchingStatus }
    match resp with
    | Except.ok result =>
      let loadedStatus :=
        str "Loaded " ++ fmtNat result.logs.length ++
          str " logs from " ++ a.fetchLabel
      { a with
        status := loadedStatus,
        total_hits := result.total,
        page := page,
        logs := result.logs,
        log_index := 0,
        focused := Pane.Logs }
    | Except.error e =>
      { a with status := str "Error: " ++ e }

/-- `App::fetch_logs`. -/
def fetch_logs (a : App) (resp : Except Str LogResult) : App :=
  a.fetch_page 1 resp

/-- `App::next_page`. -/
def next_page (a : App) (resp : Except Str LogResult) : App :=
  if a.page < a.total_pages then a.fetch_page (a.page + 1) resp else a

/-- `App::prev_page`. -/
def prev_page (a : App) (resp : Except Str LogResult) : App :=
  if 1 < a.page then a.fetch_page (a.page - 1) resp else a

/-- `App::scroll_down`. -/
def scroll_down (a : App) : App :=
  if a.logs.isEmpty then a
  else { a with log_index := min (a.log_index + 1) (a.logs.length - 1) }

/-- `App::scroll_up`. -/
def scroll_up (a : App) : App :=
  { a with log_index := a.log_index - 1 }

end App

/-- One clause of the `must` array built by `opensearch::fetch_logs`
(`src/opensearch.rs` lines 132–148). -/
inductive Clause where
  | matchProfiles (v : Str)
  | rangeTimestamp (gte : Str)
  | matchApplication (v : Str)
  | matchSeverity (v : Str)
  | matchPhraseMessage (q : Str)
  | queryStringMessage (q : Str)
  deriving DecidableEq, Repr

/-- The `must` clause list `opensearch::fetch_logs` sends, built from the
request parameters in source order. -/
def buildMust (p : Params) : List Clause :=
  [Clause.matchProfiles p.profile, Clause.rangeTimestamp p.time_range] ++
  (match p.application with
   | some app => [Clause.matchApplication app]
   | none => []) ++
  (match p.severity with
   | some sev => [Clause.matchSeverity sev]
   | none => []) ++
  (match p.search with
   | some q =>
     if p.search_exact then [Clause.matchPhraseMessage q]
     else [Clause.queryStringMessage (str "*" ++ q ++ str "*")]
   | none => [])

/-- The key codes the `run` loop in `src/main.rs` distinguishes; every other
key falls into the handler's `_ => {}` arms. -/
inductive KeyCode where
  | Char (c : Char) | Enter | Esc | Backspace | Up | Down | Left | Right
  deriving DecidableEq, Repr

/-- Results of the external collaborators a single key event may consult:
the backend response used if the event triggers a fetch, the status message
produced by `open_in_editor`, and the clipboard outcome. -/
structure Env where
  fetchResp : Except Str LogResult
  editorMsg : Str
  clipboard : Except Str Unit
  deriving Repr

/-- Is `p` one of the filter-dimension panes (those owning a FilterField)? -/
def isFilterPane (p : Pane) : Prop :=
  p = Pane.Profile ∨ p = Pane.Application ∨ p = Pane.Severity ∨
  p = Pane.TimeRange ∨ p = Pane.Limit ∨ p = Pane.SearchMode ∨
  p = Pane.SearchFields

instance (p : Pane) : Decidable (isFilterPane p) := by
  unfold isFilterPane; infer_instance

namespace App

/-- `app.profile_filter.open(); app.focused = Pane::Profile` — the body of
the `'P'` hotkey arm in `run`. -/
def openProfile (a : App) : App :=
  { a with profile_filter := a.profile_filter.«open», focused := Pane.Profile }

/-- The `'A'` hotkey arm. -/
def openApplication (a : App) : App :=
  { a with app_filter := a.app_filter.«open», focused := Pane.Application }

/-- The `'S'` hotkey arm. -/
def openSeverity (a : App) : App :=
  { a with severity_filter := a.severity_filter.«open»,
           focused := Pane.Severity }

/-- The `'T'` hotkey arm. -/
def openTimeRange (a : App) : App :=
  { a with time_filter := a.time_filter.«open», focused := Pane.TimeRange }

/-- The `'N'` hotkey arm (Logs pane only). -/
def openLimit (a : App) : App :=
  { a with limit_filter := a.limit_filter.«open», focused := Pane.Limit }

/-- The `'M'` hotkey arm. -/
def openSearchMode (a : App) : App :=
  { a with search_mode_filter := a.search_mode_filter.«open»,
           focused := Pane.SearchMode }

/-- The `'F'` hotkey arm. -/
def openSearchFields (a : App) : App :=
  { a with search_fields_filter := a.search_fields_filter.«open»,
           focused := Pane.SearchFields }

/-- `app.focused = Pane::Search`. -/
def focusSearch (a : App) : App := { a with focused := Pane.Search }

/-- `app.focused = Pane::Logs`. -/
def focusLogs (a : App) : App := { a with focused := Pane.Logs }

/-- `app.status = s`. -/
def setStatus (a : App) (s : Str) : App := { a with status := s }

/-- The Enter arm in the Logs pane: enter the context menu over the
highlighted log (only when `logs` is non-empty). -/
def enterContext (a : App) : App :=
  { a with context_cursor := 0, focused := Pane.LogContext }

/-- `run` (`src/main.rs`), Logs-pane branch. `'q'` returns from the loop
(state unchanged); `'E'` launches the external editor, whose status message
comes from `env`. -/
def handleLogs (a : App) (k : KeyCode) (env : Env) : App :=
  match k with
  | KeyCode.Char c =>
    if c = 'q' then a
    else if c = 'P' then a.openProfile
    else if c = 'A' then a.openApplication
    else if c = 'S' then a.openSeverity
    else if c = 'T' then a.openTimeRange
    else if c = 'N' then a.openLimit
    else if c = 'R' then a.fetch_page a.page env.fetchResp
    else if c = 'j' then a.scroll_down
    else if c = 'k' then a.scroll_up
    else if c = 'l' then a.next_page env.fetchResp
    else if c = 'h' then a.prev_page env.fetchResp
    else if c = '/' then a.focusSearch
    else if c = 'M' then a.openSearchMode
    else if c = 'F' then a.openSearchFields
    else if c = 'E' then
      if a.logs.isEmpty then a else a.setStatus env.editorMsg
    else a
  | KeyCode.Down => a.scroll_down
  | KeyCode.Up => a.scroll_up
  | KeyCode.Right => a.next_page env.fetchResp
  | KeyCode.Left => a.prev_page env.fetchResp
  | KeyCode.Enter => if a.logs.isEmpty then a else a.enterContext
  | _ => a

/-- The Enter arm of the LogContext pane before focus returns to Logs: the
clipboard/editor action on the highlighted record, folded into `status`. -/
def contextAction (a : App) (env : Env) : App :=
  match a.logs[a.log_index]? with
  | some _ =>
    if a.context_cursor = 0 then
      match env.clipboard with
      | Except.ok _ => a.setStatus (str "Copied to clipboard")
      | Except.error e => a.setStatus (str "Clipboard error: " ++ e)
    else if a.context_cursor = 1 then a.setStatus env.editorMsg
    else a
  | none => a

/-- Saturating down-move of the context-menu cursor. -/
def ctxDown (a : App) : App :=
  { a with
    context_cursor := min (a.context_cursor + 1) (CONTEXT_MENU_OPTIONS.length - 1) }

/-- Saturating up-move of the context-menu cursor. -/
def ctxUp (a : App) : App := { a with context_cursor := a.context_cursor - 1 }

/-- `run`, LogContext-pane branch. -/
def handleContext (a : App) (k : KeyCode) (env : Env) : App :=
  match k with
  | KeyCode.Down => a.ctxDown
  | KeyCode.Char c =>
    if c = 'j' then a.ctxDown
    else if c = 'k' then a.ctxUp
    else a
  | KeyCode.Up => a.ctxUp
  | KeyCode.Enter => (a.contextAction env).focusLogs
  | KeyCode.Esc => a.focusLogs
  | _ => a

/-- `run`, Search-pane branch. -/
def handleSearch (a : App) (k : KeyCode) (env : Env) : App :=
  match k with
  | KeyCode.Char c => { a with search_text := a.search_text ++ [c] }
  | KeyCode.Backspace => { a with search_text := a.search_text.dropLast }
  | KeyCode.Enter =>
    (a.setStatus (str "Fetching logs...")).fetch_logs env.fetchResp
  | KeyCode.Esc => a.focusLogs
  | _ => a

/-- `run`, filter-dropdown branch (`src/main.rs` lines 400–454): uppercase
hotkeys switch pane, any other character routes to `type_char` on the
focused field. Note the arm list: `'N'` (the Limit hotkey) is absent here. -/
def handleFilter (a : App) (k : KeyCode) (env : Env) : App :=
  match k with
  | KeyCode.Char c =>
    if c = 'P' then a.openProfile
    else if c = 'A' then a.openApplication
    else if c = 'S' then a.openSeverity
    else if c = 'T' then a.openTimeRange
    else if c = 'L' then a.focusLogs
    else if c = '/' then a.focusSearch
    else if c = 'M' then a.openSearchMode
    else if c = 'F' then a.openSearchFields
    else a.with_active (fun f => f.type_char c)
  | KeyCode.Backspace => a.with_active (fun f => f.backspace)
  | KeyCode.Down => a.with_active (fun f => f.next)
  | KeyCode.Up => a.with_active (fun f => f.previous)
  | KeyCode.Enter =>
    -- the source reads `pane = app.focused` before the `&mut` call;
    -- `with_active` never changes `focused`, so `pane` is `a.focused`
    if a.focused = Pane.SearchMode ∨ a.focused = Pane.SearchFields then
      (a.with_active (fun f => f.confirm)).focusLogs
    else
      ((a.with_active (fun f => f.confirm)).setStatus
        (str "Fetching logs...")).fetch_logs env.fetchResp
  | KeyCode.Esc => a.focusLogs
  | _ => a

/-- One iteration of the `run` loop for a single key event. -/
def step_key (a : App) (k : KeyCode) (env : Env) : App :=
  match a.focused with
  | Pane.Logs => a.handleLogs k env
  | Pane.LogContext => a.handleContext k env
  | Pane.Search => a.handleSearch k env
  | Pane.Profile | Pane.Application | Pane.Severity | Pane.TimeRange
  | Pane.Limit | Pane.SearchMode | Pane.SearchFields => a.handleFilter k env

end App

/-- An externally observable step of the program: the startup calls
(`load_filters`, the initial `fetch_logs`) and key events from the `run`
loop, each bundled with the backend/collaborator outcome it consumes. -/
inductive Action where
  | load (resp : Except Str AvailableFilters)
  | startFetch (resp : Except Str LogResult)
  | key (k : KeyCode) (env : Env)

/-- Execute one action. -/
def stepAction (a : App) (act : Action) : App :=
  match act with
  | Action.load resp => a.load_filters resp
  | Action.startFetch resp => a.fetch_logs resp
  | Action.key k env => a.step_key k env

/-- Run a sequence of actions from the freshly constructed state: the
reachable states of the program. -/
def runActions (acts : List Action) : App :=
  acts.foldl stepAction App.new

/-- The public mutating operations of `FilterField`, for quantifying over
arbitrary operation sequences. -/
inductive FOp where
  | next
  | previous
  | typeChar (c : Char)
  | backspace
  | openDropdown
  | confirm
  | selectValue (v : Str)
  | setItems (vs : List Str)

/-- Apply one `FilterField` operation. -/
def applyFOp (f : FilterField) (op : FOp) : FilterField :=
  match op with
  | FOp.next => f.next
  | FOp.previous => f.previous
  | FOp.typeChar c => f.type_char c
  | FOp.backspace => f.backspace
  | FOp.openDropdown => f.«open»
  | FOp.confirm => f.confirm
  | FOp.selectValue v => f.select_value v
  | FOp.setItems vs => f.set_items vs

/-- Apply a sequence of `FilterField` operations. -/
def applyFOps (f : FilterField) (ops : List FOp) : FilterField :=
  ops.foldl applyFOp f

/-- The filtered-subset characterization maintained by every `FilterField`
operation: the materialized filtered items are exactly the items containing
the current filter text case-insensitively, in original order. -/
def goodFilter (f : FilterField) : Prop :=
  f.filtered_items =
    f.items.filter (fun it => substrOf (lowerStr f.filter_text) (lowerStr it))

/-- The cursor bound maintained by every `FilterField` operation. -/
def cursorInv (f : FilterField) : Prop :=
  (f.filtered_indices = [] → f.cursor = 0) ∧
  (f.filtered_indices ≠ [] → f.cursor < f.filtered_indices.length)

/-- The search-mode field's state maintained while "Exact" is never
confirmed: its candidate list is the one installed by `App::new` and the
committed index never points at "Exact" (index 1). -/
def smfInv (a : App) : Prop :=
  a.search_mode_filter.items = [str "Each word", str "Exact"] ∧
  a.search_mode_filter.selected_index ≠ 1

/-- The value currently highlighted by a `FilterField`'s cursor (the item
`confirm` would commit). -/
def highlighted (f : FilterField) : Option Str :=
  match f.filtered_indices[f.cursor]? with
  | some i => f.items[i]?
  | none => none

/-- Does this action confirm "Exact" in the search-mode field: an Enter key
while `SearchMode` is focused with "Exact" highlighted? -/
def confirmsExact (a : App) (act : Action) : Bool :=
  match act with
  | Action.key KeyCode.Enter _ =>
    decide (a.focused = Pane.SearchMode) &&
      (highlighted a.search_mode_filter == some (str "Exact"))
  | _ => false

/-- Does a run of `acts` from `a` never confirm "Exact" in the search-mode
field? -/
def noExactConfirm (a : App) : List Action → Bool
  | [] => true
  | act :: rest => !confirmsExact a act && noExactConfirm (stepAction a act) rest

/-- A collaborator environment whose backend calls all fail; concrete
fixture for witnesses and counterexamples. -/
def env0 : Env :=
  { fetchResp := Except.error (str "backend down"), editorMsg := [],
    clipboard := Except.error [] }

/-- A collaborator environment whose fetch succeeds with no log rows and
the given total hit count. -/
def envOk (total : Nat) : Env :=
  { env0 with fetchResp := Except.ok { logs := [], total := total } }

/-- A facet response offering a single "production" environment. -/
def filters0 : AvailableFilters :=
  { environments := [str "production"], applications := [], severities := [] }

/-- Startup followed by focusing the Application dropdown: the state in
which the missing `'N'` hotkey arm is observable. -/
def trFocusApp : List Action :=
  [Action.load (Except.ok filters0), Action.key (KeyCode.Char 'A') env0]

/-- Startup (committed page size 50), a successful fetch reporting 200 total
hits, then `next_page` whose successful response reports 0 total hits. -/
def trShrink : List Action :=
  [Action.load (Except.ok filters0),
   Action.startFetch (Except.ok { logs := [], total := 200 }),
   Action.key (KeyCode.Char 'l') (envOk 0)]

/-- A fresh app whose committed page size is the (sole) item `lim` and whose
total hit count is `hits`: fixture for the paginator examples. -/
def appHits (hits : Nat) (lim : String) : App :=
  { App.new with
    total_hits := hits,
    limit_filter := FilterField.new.set_items [str lim] }

/-- A fresh app with a committed environment and committed page size 50:
fixture for query-construction witnesses. -/
def appReady : App :=
  { App.new with
    profile_filter := FilterField.new.set_items [str "production"],
    app_filter := FilterField.new.set_items [ALL],
    severity_filter := FilterField.new.set_items [ALL],
    limit_filter := FilterField.new.set_items [str "50"] }

/-! ### Supporting lemmas -/

theorem findIdx?_some_lt {α : Type} (p : α → Bool) :
    ∀ (l : List α) (i : Nat), List.findIdx? p l = some i → i < l.length := by
  intro l
  induction l with
  | nil => intro i h; simp [List.findIdx?] at h
  | cons a t ih =>
    intro i h
    rw [List.findIdx?_cons] at h
    by_cases hp : p a
    · simp [hp] at h
      simp only [List.length_cons]
      omega
    · simp [hp] at h
      obtain ⟨j, hj, hji⟩ := h
      have := ih j hj
      simp only [List.length_cons]
      omega

theorem cursorInv_clamp (c : Nat) (fi : List Nat) :
    (fi = [] → (if fi.isEmpty then 0 else min c (fi.length - 1)) = 0) ∧
    (fi ≠ [] → (if fi.isEmpty then 0 else min c (fi.length - 1)) < fi.length) := by
  constructor
  · intro h; simp [h]
  · intro h
    cases fi with
    | nil => exact absurd rfl h
    | cons x xs =>
      simp only [List.isEmpty_cons, if_false, Bool.false_eq_true, List.length_cons]
      have := min_le_right c (xs.length + 1 - 1)
      omega

theorem refilter_cursorInv (f : FilterField) : cursorInv f.refilter := by
  unfold cursorInv FilterField.refilter
  exact cursorInv_clamp f.cursor _

theorem open_cursorInv (f : FilterField) : cursorInv f.«open» := by
  have hcur : f.«open».cursor =
      (List.findIdx? (fun i => i == f.selected_index)
        f.«open».filtered_indices).getD 0 := rfl
  constructor
  · intro hc
    rw [hcur, hc]
    simp [List.findIdx?]
  · intro hc
    rw [hcur]
    rcases hfind : List.findIdx? (fun i => i == f.selected_index)
        f.«open».filtered_indices with _ | i
    · simpa using List.length_pos.2 hc
    · simpa using findIdx?_some_lt _ _ i hfind

theorem applyFOp_cursorInv (f : FilterField) (op : FOp) (h : cursorInv f) :
    cursorInv (applyFOp f op) := by
  cases op with
  | next =>
    show cursorInv f.next
    unfold FilterField.next
    by_cases he : f.filtered_indices.isEmpty
    · rw [if_pos he]; exact h
    · rw [if_neg he]
      have hne : f.filtered_indices ≠ [] := fun hh => he (by simp [hh])
      constructor
      · intro hc
        exact absurd hc hne
      · intro _
        show min (f.cursor + 1) (f.filtered_indices.length - 1) <
          f.filtered_indices.length
        have hpos : 0 < f.filtered_indices.length := List.length_pos.2 hne
        have := min_le_right (f.cursor + 1) (f.filtered_indices.length - 1)
        omega
  | previous =>
    show cursorInv f.previous
    obtain ⟨h0, h1⟩ := h
    constructor
    · intro hc
      have hc' : f.filtered_indices = [] := hc
      show f.cursor - 1 = 0
      simp [h0 hc']
    · intro hc
      have hc' : f.filtered_indices ≠ [] := hc
      show f.cursor - 1 < f.filtered_indices.length
      have := h1 hc'
      omega
  | typeChar c => exact refilter_cursorInv _
  | backspace => exact refilter_cursorInv _
  | openDropdown => exact open_cursorInv f
  | confirm =>
    show cursorInv f.confirm
    unfold FilterField.confirm
    rcases hg : f.filtered_indices[f.cursor]? with _ | idx <;> simp only [hg] <;>
      exact h
  | selectValue v =>
    show cursorInv (f.select_value v)
    unfold FilterField.select_value
    rcases hg : f.items.findIdx? (fun item => item == v) with _ | idx <;>
      simp only [hg] <;> exact h
  | setItems vs => exact refilter_cursorInv _

theorem applyFOps_cursorInv (f : FilterField) (ops : List FOp) (h : cursorInv f) :
    cursorInv (applyFOps f ops) := by
  induction ops generalizing f with
  | nil => exact h
  | cons op rest ih => exact ih _ (applyFOp_cursorInv _ _ h)

/-! ### Claim C4 -/

/-- C4: for every FilterField (as the program constructs them: `new` +
`set_items`) and every sequence of `next`/`previous`/`type_char`/`backspace`
operations (and, a fortiori, the remaining public operations), the cursor
satisfies `0 ≤ cursor ≤ len(filtered_items()) - 1` when the filtered subset
is non-empty, and `cursor = 0` when it is empty. -/
theorem C4_cursor_always_in_bounds (items : List Str) (ops : List FOp) :
    ((applyFOps (FilterField.new.set_items items) ops).filtered_items = [] →
      (applyFOps (FilterField.new.set_items items) ops).cursor = 0) ∧
    ((applyFOps (FilterField.new.set_items items) ops).filtered_items ≠ [] →
      (applyFOps (FilterField.new.set_items items) ops).cursor ≤
        (applyFOps (FilterField.new.set_items items) ops).filtered_items.length - 1) := by
  have h : cursorInv (applyFOps (FilterField.new.set_items items) ops) :=
    applyFOps_cursorInv _ _ (refilter_cursorInv _)
  obtain ⟨h0, h1⟩ := h
  constructor
  · intro he
    exact h0 (by simpa [FilterField.filtered_items] using he)
  · intro he
    have hne : (applyFOps (FilterField.new.set_items items) ops).filtered_indices ≠ [] := by
      simpa [FilterField.filtered_items] using he
    have := h1 hne
    simp only [FilterField.filtered_items, List.length_map]
    omega

/-- Witness for C4 at a concrete field and empty operation list. -/
theorem C4_cursor_always_in_bounds_witness :
    (applyFOps (FilterField.new.set_items [str "a"]) []).cursor ≤
      (applyFOps (FilterField.new.set_items [str "a"]) []).filtered_items.length - 1 :=
  (C4_cursor_always_in_bounds [str "a"] []).2 (by decide)

/-! ### Claim C5 -/

theorem substrOf_nil (hay : Str) : substrOf [] hay = true := by
  unfold substrOf
  rw [List.any_eq_true]
  exact ⟨hay, (List.mem_tails hay hay).2 (List.suffix_refl hay),
    List.isPrefixOf_iff_prefix.2 List.nil_prefix⟩

theorem getD_of_mem_enum {α : Type} (l : List α) (d : α) (x : Nat × α)
    (hx : x ∈ l.enum) : l.getD x.1 d = x.2 := by
  obtain ⟨n, hn, he⟩ := List.mem_iff_getElem.1 hx
  rw [List.getElem_enum] at he
  subst he
  have hn' : n < l.length := by simpa [List.enum_length] using hn
  simp [List.getD_eq_getElem?_getD, List.getElem?_eq_getElem hn']

theorem filtered_eq_filter (l : List Str) (p : Str → Bool) :
    ((l.enum.filter (fun x => p x.2)).map Prod.fst).map (fun i => l.getD i []) =
      l.filter p := by
  rw [List.map_map]
  have h1 : (l.enum.filter (fun x => p x.2)).map ((fun i => l.getD i []) ∘ Prod.fst)
      = (l.enum.filter (fun x => p x.2)).map Prod.snd := by
    apply List.map_congr_left
    intro x hx
    exact getD_of_mem_enum l [] x (List.mem_of_mem_filter hx)
  rw [h1]
  have h2 : l.enum.filter (fun x => p x.2) = l.enum.filter (p ∘ Prod.snd) := rfl
  rw [h2, ← List.filter_map, List.enum_map_snd]

theorem query_or_isEmpty (q : Str) :
    (fun (p : Nat × Str) => q.isEmpty || substrOf q (lowerStr p.2)) =
      (fun p => substrOf q (lowerStr p.2)) := by
  funext p
  cases q with
  | nil => simp [substrOf_nil]
  | cons c cs => rfl

theorem refilter_filtered_items (f : FilterField) :
    f.refilter.filtered_items =
      f.items.filter
        (fun it => substrOf (lowerStr f.filter_text) (lowerStr it)) := by
  show ((f.items.enum.filter
      (fun p => (lowerStr f.filter_text).isEmpty ||
        substrOf (lowerStr f.filter_text) (lowerStr p.2))).map Prod.fst).map
      (fun i => f.items.getD i []) = _
  rw [query_or_isEmpty (lowerStr f.filter_text)]
  exact filtered_eq_filter f.items
    (fun it => substrOf (lowerStr f.filter_text) (lowerStr it))

theorem applyFOp_goodFilter (f : FilterField) (op : FOp) (h : goodFilter f) :
    goodFilter (applyFOp f op) := by
  cases op with
  | next =>
    show goodFilter f.next
    unfold FilterField.next
    by_cases he : f.filtered_indices.isEmpty
    · rw [if_pos he]; exact h
    · rw [if_neg he]; exact h
  | previous => exact h
  | typeChar c => exact refilter_filtered_items _
  | backspace => exact refilter_filtered_items _
  | openDropdown => exact refilter_filtered_items _
  | confirm =>
    show goodFilter f.confirm
    unfold FilterField.confirm
    rcases hg : f.filtered_indices[f.cursor]? with _ | idx <;> simp only [hg] <;>
      exact h
  | selectValue v =>
    show goodFilter (f.select_value v)
    unfold FilterField.select_value
    rcases hg : f.items.findIdx? (fun item => item == v) with _ | idx <;>
      simp only [hg] <;> exact h
  | setItems vs => exact refilter_filtered_items _

theorem applyFOps_goodFilter (f : FilterField) (ops : List FOp)
    (h : goodFilter f) : goodFilter (applyFOps f ops) := by
  induction ops generalizing f with
  | nil => exact h
  | cons op rest ih => exact ih _ (applyFOp_goodFilter _ _ h)

/-- C5: in every `FilterField` state the program can produce (`new` +
`set_items` followed by any operation sequence), `filtered_items()` is
exactly the sublist of `items` whose elements contain the current filter
text case-insensitively as a substring (`substrOf` on lowercased strings;
the empty text matches everything since `substrOf [] _ = true`), in the
original insertion order — `List.filter` keeps order, drops every
non-matching item and keeps every matching one. -/
theorem C5_filtered_items_characterization (items : List Str) (ops : List FOp) :
    (applyFOps (FilterField.new.set_items items) ops).filtered_items =
      (applyFOps (FilterField.new.set_items items) ops).items.filter
        (fun it => substrOf
          (lowerStr (applyFOps (FilterField.new.set_items items) ops).filter_text)
          (lowerStr it)) :=
  applyFOps_goodFilter _ _ (refilter_filtered_items _)

/-! ### Claim C1 -/

/-- C1: every fetch invocation (commit, page navigation, refresh, and
search submit all delegate to `App::fetch_page`) that fails — either the
environment filter is missing or the backend returns an error — leaves
every field of the state machine, in particular `logs`, `total_hits` and
`page`, exactly as it was; only `status` is rewritten. -/
theorem C1_failed_fetch_frame (a : App) (p : Nat) (resp : Except Str LogResult)
    (h : a.selected_env = none ∨ ∃ e, resp = Except.error e) :
    ∃ s, a.fetch_page p resp = { a with status := s } := by
  unfold App.fetch_page App.buildParams
  rcases h with h | ⟨e, he⟩
  · rw [h]
    exact ⟨_, rfl⟩
  · rcases henv : a.selected_env with _ | env
    · exact ⟨_, rfl⟩
    · subst he
      exact ⟨_, rfl⟩

/-- Witness for C1: a backend error on the fresh state. -/
theorem C1_failed_fetch_frame_witness :
    ∃ s, App.new.fetch_page 1 (Except.error (str "boom")) =
      { App.new with status := s } :=
  C1_failed_fetch_frame App.new 1 _ (Or.inl rfl)

/-! ### Claim C9 -/

/-- C9: requesting the mutable FilterField of the focused pane while
`Logs`, `Search` or `LogContext` is focused hits the `unreachable!` arm of
`App::active_filter_mut` — modelled as `none` — so no field is ever
returned; the call is a fatal precondition failure, not a silent no-op. -/
theorem C9_no_field_for_non_filter_panes (a : App)
    (h : a.focused = Pane.Logs ∨ a.focused = Pane.Search ∨
      a.focused = Pane.LogContext) :
    a.active_filter_mut = none := by
  unfold App.active_filter_mut
  rcases h with h | h | h <;> rw [h]

/-- Witness for C9 on the fresh state, whose focused pane is `Logs`. -/
theorem C9_no_field_for_non_filter_panes_witness :
    App.new.active_filter_mut = none :=
  C9_no_field_for_non_filter_panes App.new (Or.inl rfl)

/-! ### Claim C7 -/

/-- C7: while any filter-dimension pane is focused, `Esc` returns focus to
`Logs` and changes nothing else — in particular every field's committed
selection is untouched (no commit happens). The uncommitted typing is
discarded in the sense that every transition back into a filter pane goes
through `FilterField::open`, which clears the live filter text while
preserving the committed selection (second conjunct). -/
theorem C7_esc_returns_to_logs_without_commit (a : App) (env : Env)
    (h : isFilterPane a.focused) :
    a.step_key KeyCode.Esc env = { a with focused := Pane.Logs } ∧
    ∀ f : FilterField,
      f.«open».filter_text = [] ∧ f.«open».selected_index = f.selected_index := by
  constructor
  · unfold App.step_key
    rcases h with h | h | h | h | h | h | h <;> rw [h] <;> rfl
  · intro f
    exact ⟨rfl, rfl⟩

/-- Witness for C7 with the Application pane focused. -/
theorem C7_esc_returns_to_logs_without_commit_witness :
    ({ App.new with focused := Pane.Application } : App).step_key
        KeyCode.Esc env0 =
      { ({ App.new with focused := Pane.Application } : App) with
          focused := Pane.Logs } :=
  (C7_esc_returns_to_logs_without_commit
    { App.new with focused := Pane.Application } env0
    (Or.inr (Or.inl rfl))).1

/-! ### Claim C6 -/

theorem divCeilU64_le_mul (n m : Nat) (hm : 0 < m) : n ≤ divCeilU64 n m * m := by
  have hdm := Nat.div_add_mod n m
  unfold divCeilU64
  by_cases hr : n % m = 0
  · have h1 : n = m * (n / m) := by omega
    simp only [hr, ne_eq, not_true_eq_false, if_false]
    rw [Nat.add_zero, Nat.mul_comm]
    omega
  · have hlt : n % m < m := Nat.mod_lt _ hm
    simp only [ne_eq, hr, not_false_eq_true, if_true]
    rw [Nat.add_mul, one_mul, Nat.mul_comm]
    omega

theorem divCeilU64_min (n m k : Nat) (hm : 0 < m) (hk : n ≤ k * m) :
    divCeilU64 n m ≤ k := by
  have hdm := Nat.div_add_mod n m
  have hlt : n % m < m := Nat.mod_lt _ hm
  unfold divCeilU64
  by_cases hr : n % m = 0
  · simp only [hr, ne_eq, not_true_eq_false, if_false, Nat.add_zero]
    rw [Nat.div_le_iff_le_mul_add_pred hm]
    rw [Nat.mul_comm] at hk
    omega
  · simp only [ne_eq, hr, not_false_eq_true, if_true]
    by_contra hcon
    push_neg at hcon
    have hk' : k ≤ n / m := by omega
    have hmul : k * m ≤ (n / m) * m := Nat.mul_le_mul_right m hk'
    rw [Nat.mul_comm (n / m) m] at hmul
    omega

theorem total_pages_ceil (a : App) (L : Nat) (hL0 : 0 < L) (hLlt : L < 2 ^ 64)
    (hsel : a.selected_limit = (L : Int)) :
    a.total_hits ≤ a.total_pages * L ∧
    (∀ k, 1 ≤ k → a.total_hits ≤ k * L → a.total_pages ≤ k) ∧
    1 ≤ a.total_pages := by
  have hU : asU64 a.selected_limit = L := by
    rw [hsel]
    unfold asU64
    rw [Int.emod_eq_of_lt (by positivity) (by exact_mod_cast hLlt)]
    simp
  unfold App.total_pages
  rw [hU]
  have hne : ¬ (L = 0) := by omega
  rw [if_neg hne]
  refine ⟨?_, ?_, ?_⟩
  · calc a.total_hits ≤ divCeilU64 a.total_hits L * L :=
        divCeilU64_le_mul a.total_hits L hL0
      _ ≤ max (divCeilU64 a.total_hits L) 1 * L :=
        Nat.mul_le_mul_right L (le_max_left _ _)
  · intro k hk1 hkm
    exact max_le (divCeilU64_min a.total_hits L k hL0 hkm) hk1
  · exact le_max_right _ _

/-- C6: pagination arithmetic. (1) A committed page size of 0 yields one
page (no division by zero). (2) For a positive committed page size `L`,
`total_pages()` is exactly `max(ceil(total_hits / L), 1)`, characterized as
the least page count `k ≥ 1` with `total_hits ≤ k·L`. (3) The request
parameters satisfy `from = (page-1)·page_size` and `size = page_size`.
(4) The spec's worked examples: 101 hits at size 50 → 3 pages, 0 hits → 1
page, size 0 → 1 page, and page 2 at size 50 → `from = 50`. -/
theorem C6_paginator_arithmetic :
    (∀ a : App, a.selected_limit = 0 → a.total_pages = 1) ∧
    (∀ (a : App) (L : Nat), 0 < L → L < 2 ^ 64 → a.selected_limit = (L : Int) →
      a.total_hits ≤ a.total_pages * L ∧
      (∀ k, 1 ≤ k → a.total_hits ≤ k * L → a.total_pages ≤ k) ∧
      1 ≤ a.total_pages) ∧
    (∀ (a : App) (p : Nat) (P : Params), a.buildParams p = some P →
      P.size = a.selected_limit ∧
      P.«from» = ((p - 1 : Nat) : Int) * a.selected_limit) ∧
    (appHits 101 "50").total_pages = 3 ∧
    (appHits 0 "50").total_pages = 1 ∧
    (appHits 7 "0").total_pages = 1 ∧
    (appReady.buildParams 2).map Params.«from» = some 50 ∧
    (appReady.buildParams 2).map Params.size = some 50 := by
  refine ⟨?_, ?_, ?_, by decide, by decide, by decide, by decide, by decide⟩
  · intro a h
    unfold App.total_pages
    rw [h]
    norm_num [asU64]
  · intro a L hL0 hLlt hsel
    exact total_pages_ceil a L hL0 hLlt hsel
  · intro a p P h
    unfold App.buildParams at h
    rcases henv : a.selected_env with _ | env
    · rw [henv] at h
      exact absurd h (by simp)
    · rw [henv] at h
      simp only [Option.some.injEq] at h
      subst h
      exact ⟨rfl, rfl⟩

/-- Witness for C6 at the spec's worked example (101 hits, page size 50). -/
theorem C6_paginator_arithmetic_witness :
    (appHits 101 "50").total_hits ≤ (appHits 101 "50").total_pages * 50 :=
  (C6_paginator_arithmetic.2.1 (appHits 101 "50") 50 (by decide)
    (by norm_num) (by decide)).1

/-! ### Claim C8 -/

theorem buildMust_no_app (P : Params) (h : P.application = none) :
    ∀ c ∈ buildMust P, ∀ v, c ≠ Clause.matchApplication v := by
  intro c hc v hceq
  subst hceq
  rcases hsev : P.severity with _ | sev <;>
    rcases hsearch : P.search with _ | q <;>
    by_cases hex : P.search_exact = true <;>
    simp [buildMust, h, hsev, hsearch, hex] at hc

theorem buildMust_no_severity (P : Params) (h : P.severity = none) :
    ∀ c ∈ buildMust P, ∀ v, c ≠ Clause.matchSeverity v := by
  intro c hc v hceq
  subst hceq
  rcases happ : P.application with _ | app <;>
    rcases hsearch : P.search with _ | q <;>
    by_cases hex : P.search_exact = true <;>
    simp [buildMust, h, happ, hsearch, hex] at hc

/-- C8: committing the "ALL" sentinel for the application (resp. severity)
dimension makes `selected_app` (resp. `selected_severity`) `none`, so the
backend request parameters carry no value for that field and the `must`
clause list built by `opensearch::fetch_logs` contains no match clause for
it. -/
theorem C8_all_sentinel_omits_clause :
    (∀ (a : App) (p : Nat) (P : Params),
      a.app_filter.selected_value = some ALL → a.buildParams p = some P →
      P.application = none ∧
      ∀ c ∈ buildMust P, ∀ v, c ≠ Clause.matchApplication v) ∧
    (∀ (a : App) (p : Nat) (P : Params),
      a.severity_filter.selected_value = some ALL → a.buildParams p = some P →
      P.severity = none ∧
      ∀ c ∈ buildMust P, ∀ v, c ≠ Clause.matchSeverity v) := by
  constructor
  · intro a p P hall h
    have happ : a.selected_app = none := by
      unfold App.selected_app
      rw [hall]
      simp [Option.filter]
    unfold App.buildParams at h
    rcases henv : a.selected_env with _ | env
    · rw [henv] at h
      exact absurd h (by simp)
    · rw [henv] at h
      simp only [Option.some.injEq] at h
      subst h
      exact ⟨happ, buildMust_no_app _ happ⟩
  · intro a p P hall h
    have hsev : a.selected_severity = none := by
      unfold App.selected_severity
      rw [hall]
      simp [Option.filter]
    unfold App.buildParams at h
    rcases henv : a.selected_env with _ | env
    · rw [henv] at h
      exact absurd h (by simp)
    · rw [henv] at h
      simp only [Option.some.injEq] at h
      subst h
      exact ⟨hsev, buildMust_no_severity _ hsev⟩

/-- Witness for C8 on a state whose application and severity fields both
commit the "ALL" sentinel. -/
theorem C8_all_sentinel_omits_clause_witness :
    ∃ P : Params, appReady.buildParams 1 = some P ∧ P.application = none := by
  rcases hP : appReady.buildParams 1 with _ | P
  · exact absurd hP (by decide)
  · exact ⟨P, rfl,
      (C8_all_sentinel_omits_clause.1 appReady 1 P (by decide) hP).1⟩

/-! ### Claim C2 -/

/-- C2 (failing evaluation): `'N'` is the dedicated hotkey of the Limit
(page-size) filter dimension — from `Logs` it opens that pane — yet the
filter-pane key branch of `run` has no `'N'` arm (its own comment says
"Uppercase hotkeys always switch pane"). With the Application pane focused,
pressing `'N'` leaves focus on Application, appends `'N'` to the
application filter's live search text, and never opens the Limit pane. -/
theorem C2_limit_hotkey_typed_into_filter :
    (runActions trFocusApp).focused = Pane.Application ∧
    App.new.handleLogs (KeyCode.Char 'N') env0 =
      { App.new with limit_filter := App.new.limit_filter.«open»,
                     focused := Pane.Limit } ∧
    ((runActions trFocusApp).step_key (KeyCode.Char 'N') env0).focused =
      Pane.Application ∧
    ((runActions trFocusApp).step_key
        (KeyCode.Char 'N') env0).app_filter.filter_text = str "N" ∧
    ((runActions trFocusApp).step_key (KeyCode.Char 'N') env0).limit_filter =
      (runActions trFocusApp).limit_filter := by
  refine ⟨by decide, by decide, by decide, by decide, by decide⟩

/-! ### Frame lemmas for the reachability arguments -/

theorem fetch_page_frame (a : App) (p : Nat) (r : Except Str LogResult) :
    (a.fetch_page p r).search_mode_filter = a.search_mode_filter ∧
    ((a.fetch_page p r).page = p ∨ (a.fetch_page p r).page = a.page) := by
  unfold App.fetch_page
  cases r <;> split <;>
    first
      | exact ⟨rfl, Or.inr rfl⟩
      | exact ⟨rfl, Or.inl rfl⟩

theorem fetch_page_smf (a : App) (p : Nat) (r : Except Str LogResult) :
    (a.fetch_page p r).search_mode_filter = a.search_mode_filter :=
  (fetch_page_frame a p r).1

theorem next_page_smf (a : App) (r : Except Str LogResult) :
    (a.next_page r).search_mode_filter = a.search_mode_filter := by
  unfold App.next_page
  split
  · exact fetch_page_smf _ _ _
  · rfl

theorem prev_page_smf (a : App) (r : Except Str LogResult) :
    (a.prev_page r).search_mode_filter = a.search_mode_filter := by
  unfold App.prev_page
  split
  · exact fetch_page_smf _ _ _
  · rfl

theorem scroll_down_smf (a : App) :
    a.scroll_down.search_mode_filter = a.search_mode_filter := by
  unfold App.scroll_down
  split <;> rfl

theorem load_filters_frame (a : App) (resp : Except Str AvailableFilters) :
    (a.load_filters resp).search_mode_filter = a.search_mode_filter ∧
    (a.load_filters resp).page = a.page := by
  unfold App.load_filters
  cases resp <;> exact ⟨rfl, rfl⟩

theorem with_active_smf_ne (a : App) (g : FilterField → FilterField)
    (h : a.focused ≠ Pane.SearchMode) :
    (a.with_active g).search_mode_filter = a.search_mode_filter := by
  unfold App.with_active App.active_filter_mut App.store_active
  cases hf : a.focused <;> first | rfl | exact absurd hf h

theorem with_active_smf_eq (a : App) (g : FilterField → FilterField)
    (h : a.focused = Pane.SearchMode) :
    (a.with_active g).search_mode_filter = g a.search_mode_filter := by
  unfold App.with_active App.active_filter_mut App.store_active
  rw [h]

theorem with_active_page (a : App) (g : FilterField → FilterField) :
    (a.with_active g).page = a.page := by
  unfold App.with_active App.active_filter_mut App.store_active
  cases hf : a.focused <;> rfl

theorem with_active_smfKey (a : App) (g : FilterField → FilterField)
    (hg : ∀ f, (g f).items = f.items ∧ (g f).selected_index = f.selected_index) :
    (a.with_active g).search_mode_filter.items = a.search_mode_filter.items ∧
    (a.with_active g).search_mode_filter.selected_index =
      a.search_mode_filter.selected_index := by
  by_cases hf : a.focused = Pane.SearchMode
  · rw [with_active_smf_eq a g hf]
    exact hg _
  · rw [with_active_smf_ne a g hf]
    exact ⟨rfl, rfl⟩

theorem next_items_selected (f : FilterField) :
    f.next.items = f.items ∧ f.next.selected_index = f.selected_index := by
  unfold FilterField.next
  split <;> exact ⟨rfl, rfl⟩

theorem smfInv_of_key (a b : App)
    (h1 : b.search_mode_filter.items = a.search_mode_filter.items)
    (h2 : b.search_mode_filter.selected_index =
      a.search_mode_filter.selected_index)
    (h : smfInv a) : smfInv b := by
  unfold smfInv at h ⊢
  rw [h1, h2]
  exact h

theorem confirm_not_exact (f : FilterField)
    (hitems : f.items = [str "Each word", str "Exact"])
    (hsel : f.selected_index ≠ 1)
    (hnot : (highlighted f == some (str "Exact")) = false) :
    f.confirm.items = f.items ∧ f.confirm.selected_index ≠ 1 := by
  unfold FilterField.confirm
  rcases hg : f.filtered_indices[f.cursor]? with _ | idx
  · exact ⟨rfl, hsel⟩
  · refine ⟨rfl, ?_⟩
    intro h1
    show False
    have h1' : idx = 1 := h1
    have hh : highlighted f = f.items[idx]? := by
      unfold highlighted
      rw [hg]
    rw [h1', hitems] at hh
    rw [hh] at hnot
    simp at hnot

theorem fetch_logs_smf (a : App) (r : Except Str LogResult) :
    (a.fetch_logs r).search_mode_filter = a.search_mode_filter :=
  fetch_page_smf a 1 r

/-- Exhaustive enumeration of the results of the Logs-pane key handler,
one disjunct per arm of the source `match`. -/
theorem handleLogs_cases (a : App) (k : KeyCode) (env : Env) :
    a.handleLogs k env = a ∨
    a.handleLogs k env = a.openProfile ∨
    a.handleLogs k env = a.openApplication ∨
    a.handleLogs k env = a.openSeverity ∨
    a.handleLogs k env = a.openTimeRange ∨
    a.handleLogs k env = a.openLimit ∨
    a.handleLogs k env = a.fetch_page a.page env.fetchResp ∨
    a.handleLogs k env = a.scroll_down ∨
    a.handleLogs k env = a.scroll_up ∨
    a.handleLogs k env = a.next_page env.fetchResp ∨
    a.handleLogs k env = a.prev_page env.fetchResp ∨
    a.handleLogs k env = a.focusSearch ∨
    a.handleLogs k env = a.openSearchMode ∨
    a.handleLogs k env = a.openSearchFields ∨
    a.handleLogs k env = a.setStatus env.editorMsg ∨
    a.handleLogs k env = a.enterContext := by
  cases k with
  | Char c =>
    dsimp only [App.handleLogs]
    by_cases h1 : c = 'q'
    · rw [if_pos h1]
      simp only [eq_self_iff_true, true_or, or_true]
    rw [if_neg h1]
    by_cases h2 : c = 'P'
    · rw [if_pos h2]
      simp only [eq_self_iff_true, true_or, or_true]
    rw [if_neg h2]
    by_cases h3 : c = 'A'
    · rw [if_pos h3]
      simp only [eq_self_iff_true, true_or, or_true]
    rw [if_neg h3]
    by_cases h4 : c = 'S'
    · rw [if_pos h4]
      simp only [eq_self_iff_true, true_or, or_true]
    rw [if_neg h4]
    by_cases h5 : c = 'T'
    · rw [if_pos h5]
      simp only [eq_self_iff_true, true_or, or_true]
    rw [if_neg h5]
    by_cases h6 : c = 'N'
    · rw [if_pos h6]
      simp only [eq_self_iff_true, true_or, or_true]
    rw [if_neg h6]
    by_cases h7 : c = 'R'
    · rw [if_pos h7]
      simp only [eq_self_iff_true, true_or, or_true]
    rw [if_neg h7]
    by_cases h8 : c = 'j'
    · rw [if_pos h8]
      simp only [eq_self_iff_true, true_or, or_true]
    rw [if_neg h8]
    by_cases h9 : c = 'k'
    · rw [if_pos h9]
      simp only [eq_self_iff_true, true_or, or_true]
    rw [if_neg h9]
    by_cases h10 : c = 'l'
    · rw [if_pos h10]
      simp only [eq_self_iff_true, true_or, or_true]
    rw [if_neg h10]
    by_cases h11 : c = 'h'
    · rw [if_pos h11]
      simp only [eq_self_iff_true, true_or, or_true]
    rw [if_neg h11]
    by_cases h12 : c = '/'
    · rw [if_pos h12]
      simp only [eq_self_iff_true, true_or, or_true]
    rw [if_neg h12]
    by_cases h13 : c = 'M'
    · rw [if_pos h13]
      simp only [eq_self_iff_true, true_or, or_true]
    rw [if_neg h13]
    by_cases h14 : c = 'F'
    · rw [if_pos h14]
      simp only [eq_self_iff_true, true_or, or_true]
    rw [if_neg h14]
    by_cases h15 : c = 'E'
    · rw [if_pos h15]
      by_cases he : a.logs.isEmpty
      · rw [if_pos he]
        simp only [eq_self_iff_true, true_or, or_true]
      · rw [if_neg he]
        simp only [eq_self_iff_true, true_or, or_true]
    rw [if_neg h15]
    simp only [eq_self_iff_true, true_or, or_true]
  | Down =>
    dsimp only [App.handleLogs]
    simp only [eq_self_iff_true, true_or, or_true]
  | Up =>
    dsimp only [App.handleLogs]
    simp only [eq_self_iff_true, true_or, or_true]
  | Right =>
    dsimp only [App.handleLogs]
    simp only [eq_self_iff_true, true_or, or_true]
  | Left =>
    dsimp only [App.handleLogs]
    simp only [eq_self_iff_true, true_or, or_true]
  | Enter =>
    dsimp only [App.handleLogs]
    by_cases he : a.logs.isEmpty
    · rw [if_pos he]
      simp only [eq_self_iff_true, true_or, or_true]
    · rw [if_neg he]
      simp only [eq_self_iff_true, true_or, or_true]
  | Esc =>
    dsimp only [App.handleLogs]
    simp only [eq_self_iff_true, true_or, or_true]
  | Backspace =>
    dsimp only [App.handleLogs]
    simp only [eq_self_iff_true, true_or, or_true]

/-- Exhaustive enumeration of the results of the filter-pane key handler,
one disjunct per arm of the source `match`. -/
theorem handleFilter_cases (a : App) (k : KeyCode) (env : Env) :
    a.handleFilter k env = a ∨
    a.handleFilter k env = a.openProfile ∨
    a.handleFilter k env = a.openApplication ∨
    a.handleFilter k env = a.openSeverity ∨
    a.handleFilter k env = a.openTimeRange ∨
    a.handleFilter k env = a.focusLogs ∨
    a.handleFilter k env = a.focusSearch ∨
    a.handleFilter k env = a.openSearchMode ∨
    a.handleFilter k env = a.openSearchFields ∨
    (∃ c, a.handleFilter k env = a.with_active (fun f => f.type_char c)) ∨
    a.handleFilter k env = a.with_active (fun f => f.backspace) ∨
    a.handleFilter k env = a.with_active (fun f => f.next) ∨
    a.handleFilter k env = a.with_active (fun f => f.previous) ∨
    (k = KeyCode.Enter ∧
      (((a.focused = Pane.SearchMode ∨ a.focused = Pane.SearchFields) ∧
        a.handleFilter k env = (a.with_active (fun f => f.confirm)).focusLogs) ∨
       (¬(a.focused = Pane.SearchMode ∨ a.focused = Pane.SearchFields) ∧
        a.handleFilter k env = ((a.with_active (fun f => f.confirm)).setStatus
          (str "Fetching logs...")).fetch_logs env.fetchResp))) := by
  cases k with
  | Char c =>
    dsimp only [App.handleFilter]
    by_cases h1 : c = 'P'
    · rw [if_pos h1]
      simp only [eq_self_iff_true, true_or, or_true]
    rw [if_neg h1]
    by_cases h2 : c = 'A'
    · rw [if_pos h2]
      simp only [eq_self_iff_true, true_or, or_true]
    rw [if_neg h2]
    by_cases h3 : c = 'S'
    · rw [if_pos h3]
      simp only [eq_self_iff_true, true_or, or_true]
    rw [if_neg h3]
    by_cases h4 : c = 'T'
    · rw [if_pos h4]
      simp only [eq_self_iff_true, true_or, or_true]
    rw [if_neg h4]
    by_cases h5 : c = 'L'
    · rw [if_pos h5]
      simp only [eq_self_iff_true, true_or, or_true]
    rw [if_neg h5]
    by_cases h6 : c = '/'
    · rw [if_pos h6]
      simp only [eq_self_iff_true, true_or, or_true]
    rw [if_neg h6]
    by_cases h7 : c = 'M'
    · rw [if_pos h7]
      simp only [eq_self_iff_true, true_or, or_true]
    rw [if_neg h7]
    by_cases h8 : c = 'F'
    · rw [if_pos h8]
      simp only [eq_self_iff_true, true_or, or_true]
    rw [if_neg h8]
    refine .inr (.inr (.inr (.inr (.inr (.inr (.inr (.inr (.inr
      (.inl ⟨c, rfl⟩)))))))))
  | Backspace =>
    dsimp only [App.handleFilter]
    simp only [eq_self_iff_true, true_or, or_true]
  | Down =>
    dsimp only [App.handleFilter]
    simp only [eq_self_iff_true, true_or, or_true]
  | Up =>
    dsimp only [App.handleFilter]
    simp only [eq_self_iff_true, true_or, or_true]
  | Enter =>
    dsimp only [App.handleFilter]
    by_cases hc : a.focused = Pane.SearchMode ∨ a.focused = Pane.SearchFields
    · rw [if_pos hc]
      exact .inr (.inr (.inr (.inr (.inr (.inr (.inr (.inr (.inr (.inr (.inr
        (.inr (.inr ⟨rfl, .inl ⟨hc, rfl⟩⟩))))))))))))
    · rw [if_neg hc]
      exact .inr (.inr (.inr (.inr (.inr (.inr (.inr (.inr (.inr (.inr (.inr
        (.inr (.inr ⟨rfl, .inr ⟨hc, rfl⟩⟩))))))))))))
  | Esc =>
    dsimp only [App.handleFilter]
    simp only [eq_self_iff_true, true_or, or_true]
  | Left =>
    dsimp only [App.handleFilter]
    simp only [eq_self_iff_true, true_or, or_true]
  | Right =>
    dsimp only [App.handleFilter]
    simp only [eq_self_iff_true, true_or, or_true]

theorem handleLogs_smfKey (a : App) (k : KeyCode) (env : Env) :
    (a.handleLogs k env).search_mode_filter.items =
      a.search_mode_filter.items ∧
    (a.handleLogs k env).search_mode_filter.selected_index =
      a.search_mode_filter.selected_index := by
  rcases handleLogs_cases a k env with
    heq|heq|heq|heq|heq|heq|heq|heq|heq|heq|heq|heq|heq|heq|heq|heq <;>
      rw [heq] <;>
      first
        | exact ⟨rfl, rfl⟩
        | exact ⟨by rw [fetch_page_smf], by rw [fetch_page_smf]⟩
        | exact ⟨by rw [next_page_smf], by rw [next_page_smf]⟩
        | exact ⟨by rw [prev_page_smf], by rw [prev_page_smf]⟩
        | exact ⟨by rw [scroll_down_smf], by rw [scroll_down_smf]⟩

theorem contextAction_smf (a : App) (env : Env) :
    (a.contextAction env).search_mode_filter = a.search_mode_filter := by
  unfold App.contextAction
  rcases hg : a.logs[a.log_index]? with _ | log
  · rfl
  · by_cases h0 : a.context_cursor = 0
    · rw [if_pos h0]
      rcases hc : env.clipboard with e | u <;> rfl
    · rw [if_neg h0]
      by_cases h1 : a.context_cursor = 1
      · rw [if_pos h1]
        rfl
      · rw [if_neg h1]

theorem handleContext_smf (a : App) (k : KeyCode) (env : Env) :
    (a.handleContext k env).search_mode_filter = a.search_mode_filter := by
  cases k <;> dsimp only [App.handleContext] <;> try rfl
  case Char c =>
    by_cases h0 : c = 'j'
    · rw [if_pos h0]
      rfl
    · rw [if_neg h0]
      by_cases h1 : c = 'k'
      · rw [if_pos h1]
        rfl
      · rw [if_neg h1]
  case Enter => exact contextAction_smf a env

theorem handleSearch_smf (a : App) (k : KeyCode) (env : Env) :
    (a.handleSearch k env).search_mode_filter = a.search_mode_filter := by
  cases k <;> dsimp only [App.handleSearch] <;> try rfl
  case Enter => exact fetch_page_smf _ 1 _

theorem handleFilter_smfInv (a : App) (k : KeyCode) (env : Env) (h : smfInv a)
    (hne : confirmsExact a (Action.key k env) = false) :
    smfInv (a.handleFilter k env) := by
  obtain ⟨hitems, hsel⟩ := h
  rcases handleFilter_cases a k env with
    heq|heq|heq|heq|heq|heq|heq|heq|heq|⟨c, heq⟩|heq|heq|heq|
      ⟨hk, ⟨hcond, heq⟩ | ⟨hcond, heq⟩⟩
  · rw [heq]; exact ⟨hitems, hsel⟩
  · rw [heq]; exact ⟨hitems, hsel⟩
  · rw [heq]; exact ⟨hitems, hsel⟩
  · rw [heq]; exact ⟨hitems, hsel⟩
  · rw [heq]; exact ⟨hitems, hsel⟩
  · rw [heq]; exact ⟨hitems, hsel⟩
  · rw [heq]; exact ⟨hitems, hsel⟩
  · rw [heq]; exact ⟨hitems, hsel⟩
  · rw [heq]; exact ⟨hitems, hsel⟩
  · rw [heq]
    have hkey := with_active_smfKey a (fun f => f.type_char c)
      (fun f => ⟨rfl, rfl⟩)
    exact smfInv_of_key a _ hkey.1 hkey.2 ⟨hitems, hsel⟩
  · rw [heq]
    have hkey := with_active_smfKey a (fun f => f.backspace)
      (fun f => ⟨rfl, rfl⟩)
    exact smfInv_of_key a _ hkey.1 hkey.2 ⟨hitems, hsel⟩
  · rw [heq]
    have hkey := with_active_smfKey a (fun f => f.next)
      (fun f => next_items_selected f)
    exact smfInv_of_key a _ hkey.1 hkey.2 ⟨hitems, hsel⟩
  · rw [heq]
    have hkey := with_active_smfKey a (fun f => f.previous)
      (fun f => ⟨rfl, rfl⟩)
    exact smfInv_of_key a _ hkey.1 hkey.2 ⟨hitems, hsel⟩
  -- Enter, SearchMode/SearchFields focused: confirm then focus Logs
  · rw [heq]
    by_cases hf : a.focused = Pane.SearchMode
    · have hnot : (highlighted a.search_mode_filter == some (str "Exact")) =
          false := by
        subst hk
        unfold confirmsExact at hne
        simpa [hf] using hne
      have hc := confirm_not_exact a.search_mode_filter hitems hsel hnot
      have hsmf := with_active_smf_eq a (fun f => f.confirm) hf
      constructor
      · show (a.with_active (fun f => f.confirm)).search_mode_filter.items = _
        rw [hsmf, hc.1, hitems]
      · show (a.with_active
          (fun f => f.confirm)).search_mode_filter.selected_index ≠ 1
        rw [hsmf]
        exact hc.2
    · have hsmf := with_active_smf_ne a (fun f => f.confirm) hf
      refine smfInv_of_key a _ ?_ ?_ ⟨hitems, hsel⟩
      · show (a.with_active (fun f => f.confirm)).search_mode_filter.items = _
        rw [hsmf]
      · show (a.with_active
          (fun f => f.confirm)).search_mode_filter.selected_index = _
        rw [hsmf]
  -- Enter, a query dimension focused: confirm then fetch page 1
  · rw [heq]
    have hf : a.focused ≠ Pane.SearchMode := fun hx => hcond (Or.inl hx)
    have hsmf := with_active_smf_ne a (fun f => f.confirm) hf
    have hfinal : (((a.with_active (fun f => f.confirm)).setStatus
        (str "Fetching logs...")).fetch_logs
          env.fetchResp).search_mode_filter = a.search_mode_filter := by
      rw [fetch_logs_smf]
      show (a.with_active (fun f => f.confirm)).search_mode_filter = _
      rw [hsmf]
    exact smfInv_of_key a _ (by rw [hfinal]) (by rw [hfinal]) ⟨hitems, hsel⟩

theorem stepAction_smfInv (a : App) (act : Action) (h : smfInv a)
    (hne : confirmsExact a act = false) : smfInv (stepAction a act) := by
  cases act with
  | load resp =>
    show smfInv (a.load_filters resp)
    exact smfInv_of_key a _ (by rw [(load_filters_frame a resp).1])
      (by rw [(load_filters_frame a resp).1]) h
  | startFetch resp =>
    show smfInv (a.fetch_logs resp)
    exact smfInv_of_key a _ (by rw [fetch_logs_smf]) (by rw [fetch_logs_smf]) h
  | key k env =>
    show smfInv (a.step_key k env)
    unfold App.step_key
    cases hf : a.focused
    case Logs =>
      have hk := handleLogs_smfKey a k env
      exact smfInv_of_key a _ hk.1 hk.2 h
    case LogContext =>
      exact smfInv_of_key a _ (by rw [handleContext_smf])
        (by rw [handleContext_smf]) h
    case Search =>
      exact smfInv_of_key a _ (by rw [handleSearch_smf])
        (by rw [handleSearch_smf]) h
    all_goals exact handleFilter_smfInv a k env h hne

theorem foldl_smfInv (acts : List Action) (a : App) (h : smfInv a)
    (hno : noExactConfirm a acts = true) :
    smfInv (acts.foldl stepAction a) := by
  induction acts generalizing a with
  | nil => exact h
  | cons act rest ih =>
    unfold noExactConfirm at hno
    rw [Bool.and_eq_true, Bool.not_eq_true'] at hno
    exact ih _ (stepAction_smfInv a act h hno.1) hno.2

theorem search_exact_false_of_smfInv (a : App) (h : smfInv a) :
    a.search_exact = false := by
  obtain ⟨hitems, hsel⟩ := h
  show (a.search_mode_filter.items[a.search_mode_filter.selected_index]? ==
    some (str "Exact")) = false
  rcases hidx : a.search_mode_filter.selected_index with _ | n
  · rw [hitems]
    decide
  · rw [hitems]
    cases n with
    | zero => exact absurd hidx hsel
    | succ m => simp

/-! ### Claim C10 -/

/-- C10: the freshly constructed state machine has `search_exact() = false`
("Each word" is the default search mode), and `search_exact()` stays false
in every state reachable (startup plus any key sequence, any backend
outcomes) without an Enter keystroke in the SearchMode pane while "Exact"
is the highlighted candidate. -/
theorem C10_default_search_mode :
    App.new.search_exact = false ∧
    ∀ acts : List Action, noExactConfirm App.new acts = true →
      (runActions acts).search_exact = false := by
  have hnew : smfInv App.new := by constructor <;> decide
  refine ⟨search_exact_false_of_smfInv _ hnew, fun acts h => ?_⟩
  exact search_exact_false_of_smfInv _ (foldl_smfInv acts App.new hnew h)

/-- Witness for C10: opening the SearchMode pane and confirming the
highlighted default ("Each word") keeps `search_exact()` false. -/
theorem C10_default_search_mode_witness :
    (runActions [Action.key (KeyCode.Char 'M') env0,
      Action.key KeyCode.Enter env0]).search_exact = false :=
  C10_default_search_mode.2 _ (by decide)

/-! ### Page bounds (claim C3) -/

theorem one_le_total_pages (a : App) : 1 ≤ a.total_pages := by
  unfold App.total_pages
  by_cases h : asU64 a.selected_limit = 0
  · rw [if_pos h]
  · rw [if_neg h]
    exact le_max_right _ 1

theorem next_page_one_le (a : App) (r : Except Str LogResult)
    (h : 1 ≤ a.page) : 1 ≤ (a.next_page r).page := by
  unfold App.next_page
  by_cases hc : a.page < a.total_pages
  · rw [if_pos hc]
    rcases (fetch_page_frame a (a.page + 1) r).2 with h' | h' <;> omega
  · rw [if_neg hc]
    exact h

theorem prev_page_one_le (a : App) (r : Except Str LogResult)
    (h : 1 ≤ a.page) : 1 ≤ (a.prev_page r).page := by
  unfold App.prev_page
  by_cases hc : 1 < a.page
  · rw [if_pos hc]
    rcases (fetch_page_frame a (a.page - 1) r).2 with h' | h' <;> omega
  · rw [if_neg hc]
    exact h

theorem scroll_down_page (a : App) : a.scroll_down.page = a.page := by
  unfold App.scroll_down
  split <;> rfl

theorem contextAction_page (a : App) (env : Env) :
    (a.contextAction env).page = a.page := by
  unfold App.contextAction
  rcases hg : a.logs[a.log_index]? with _ | log
  · rfl
  · by_cases h0 : a.context_cursor = 0
    · rw [if_pos h0]
      rcases hc : env.clipboard with e | u <;> rfl
    · rw [if_neg h0]
      by_cases h1 : a.context_cursor = 1
      · rw [if_pos h1]
        rfl
      · rw [if_neg h1]

theorem handleLogs_page (a : App) (k : KeyCode) (env : Env)
    (h : 1 ≤ a.page) : 1 ≤ (a.handleLogs k env).page := by
  rcases handleLogs_cases a k env with
    heq|heq|heq|heq|heq|heq|heq|heq|heq|heq|heq|heq|heq|heq|heq|heq <;>
      rw [heq] <;>
      first
        | exact h
        | exact next_page_one_le a _ h
        | exact prev_page_one_le a _ h
        | (rw [scroll_down_page]; exact h)
        | (rcases (fetch_page_frame a a.page env.fetchResp).2 with h' | h' <;>
            omega)

theorem handleContext_page (a : App) (k : KeyCode) (env : Env) :
    (a.handleContext k env).page = a.page := by
  cases k <;> dsimp only [App.handleContext] <;> try rfl
  case Char c =>
    by_cases h0 : c = 'j'
    · rw [if_pos h0]
      rfl
    · rw [if_neg h0]
      by_cases h1 : c = 'k'
      · rw [if_pos h1]
        rfl
      · rw [if_neg h1]
  case Enter => exact contextAction_page a env

theorem fetch_logs_page_cases (a : App) (r : Except Str LogResult) :
    (a.fetch_logs r).page = 1 ∨ (a.fetch_logs r).page = a.page :=
  (fetch_page_frame a 1 r).2

theorem handleSearch_page (a : App) (k : KeyCode) (env : Env)
    (h : 1 ≤ a.page) : 1 ≤ (a.handleSearch k env).page := by
  cases k <;> dsimp only [App.handleSearch] <;> try exact h
  case Enter =>
    have hs : (a.setStatus (str "Fetching logs...")).page = a.page := rfl
    rcases fetch_logs_page_cases (a.setStatus (str "Fetching logs..."))
      env.fetchResp with h' | h' <;> omega

theorem handleFilter_page (a : App) (k : KeyCode) (env : Env)
    (h : 1 ≤ a.page) : 1 ≤ (a.handleFilter k env).page := by
  rcases handleFilter_cases a k env with
    heq|heq|heq|heq|heq|heq|heq|heq|heq|⟨c, heq⟩|heq|heq|heq|
      ⟨hk, ⟨hcond, heq⟩ | ⟨hcond, heq⟩⟩ <;>
    rw [heq] <;>
    first
      | exact h
      | (rw [with_active_page]; exact h)
      | (show 1 ≤ (a.with_active (fun f => f.confirm)).page
         rw [with_active_page]; exact h)
      | (have hs : ((a.with_active (fun f => f.confirm)).setStatus
            (str "Fetching logs...")).page = a.page := by
           show (a.with_active (fun f => f.confirm)).page = a.page
           rw [with_active_page]
         rcases fetch_logs_page_cases ((a.with_active
            (fun f => f.confirm)).setStatus (str "Fetching logs..."))
            env.fetchResp with h' | h' <;>
           omega)

theorem stepAction_page (a : App) (act : Action) (h : 1 ≤ a.page) :
    1 ≤ (stepAction a act).page := by
  cases act with
  | load resp =>
    show 1 ≤ (a.load_filters resp).page
    rw [(load_filters_frame a resp).2]
    exact h
  | startFetch resp =>
    show 1 ≤ (a.fetch_logs resp).page
    rcases fetch_logs_page_cases a resp with h' | h' <;> omega
  | key k env =>
    show 1 ≤ (a.step_key k env).page
    unfold App.step_key
    cases hf : a.focused
    case Logs => exact handleLogs_page a k env h
    case LogContext =>
      rw [handleContext_page]
      exact h
    case Search => exact handleSearch_page a k env h
    all_goals exact handleFilter_page a k env h

theorem runActions_one_le_page (acts : List Action) :
    1 ≤ (runActions acts).page := by
  have hgen : ∀ (a : App), 1 ≤ a.page → 1 ≤ (acts.foldl stepAction a).page := by
    induction acts with
    | nil => exact fun a h => h
    | cons act rest ih => exact fun a h => ih _ (stepAction_page a act h)
  exact hgen App.new (le_refl 1)

/-! ### Claim C3 -/

/-- C3 counterexample: a concrete reachable run whose final step is a
*successful* fetch (the next-page navigation; its response reports 0 total
hits) after which `page = 2` exceeds `total_pages() = 1`. The claim
`page ≤ total_pages()` after every successful fetch is therefore false. -/
theorem C3_counterexample_page_exceeds_total_pages :
    (runActions trShrink).focused = Pane.Logs ∧
    (runActions trShrink).page = 2 ∧
    (runActions trShrink).total_pages = 1 ∧
    ¬ ((runActions trShrink).page ≤ (runActions trShrink).total_pages) := by
  refine ⟨by decide, by decide, by decide, by decide⟩

/-- C3 (amended): `page ≥ 1` holds in every reachable state (hence after
every successful fetch); and after a successful fetch that requested page 1
— every commit and search-submit fetch — `page ≤ total_pages()` holds. The
unrestricted bound fails for next-page/refresh fetches whose response
reports fewer total hits than the total used to gate the navigation (see
the counterexample). -/
theorem C3_amended_page_bounds :
    (∀ acts : List Action, 1 ≤ (runActions acts).page) ∧
    (∀ (a : App) (e : Str) (r : LogResult), a.selected_env = some e →
      (a.fetch_page 1 (Except.ok r)).page ≤
        (a.fetch_page 1 (Except.ok r)).total_pages) := by
  constructor
  · exact runActions_one_le_page
  · intro a e r henv
    unfold App.fetch_page App.buildParams
    rw [henv]
    exact one_le_total_pages _

/-- Witness for C3 (amended), at the empty trace and a concrete fetch. -/
theorem C3_amended_page_bounds_witness :
    (appReady.fetch_page 1 (Except.ok { logs := [], total := 0 })).page ≤
      (appReady.fetch_page 1 (Except.ok { logs := [], total := 0 })).total_pages :=
  C3_amended_page_bounds.2 appReady (str "production") _ (by decide)

end LogExplorer

